import Mathlib

set_option maxRecDepth 100000

/-!
Verification of the Taiyi chain SDK client (src/main.js) against its
natural-language specification.  The JavaScript source is shallowly embedded:
JSON values, JSON.stringify, SHA-256 + base64 (CryptoJS.SHA256 /
CryptoJS.enc.Base64.stringify), the URL constructor's pathname extraction, the
fetch Request/Response objects and the TaiyiClient state machine are modelled
as executable Lean definitions.  Platform primitives whose outputs the claims
never inspect byte-for-byte (ed25519.sign, the network, JSON.parse of the
double-encoded data field, nonce generation, clock) are threaded as explicit
function/value parameters.
-/

namespace Taiyi

/-- JSON values as manipulated by the SDK.  Object fields keep insertion
order, exactly as JavaScript object literals and JSON.stringify do. -/
inductive Json where
  | null : Json
  | bool (b : Bool) : Json
  | num (n : Int) : Json
  | str (s : String) : Json
  | arr (elems : List Json) : Json
  | obj (fields : List (String × Json)) : Json
deriving Repr

/-- Hexadecimal digit character for values below 16 (used by the JSON
string escaper for control characters). -/
def hexDigitChar (n : Nat) : Char :=
  if n < 10 then Char.ofNat (48 + n)
  else Char.ofNat (87 + n)

/-- JSON.stringify escaping of one character inside a string literal. -/
def escapeJsonChar (c : Char) : String :=
  if c = '\"' then "\\\""
  else if c = '\\' then "\\\\"
  else if c = '\n' then "\\n"
  else if c = '\r' then "\\r"
  else if c = '\t' then "\\t"
  else if c.toNat = 8 then "\\b"
  else if c.toNat = 12 then "\\f"
  else if c.toNat < 32 then
    "\\u00" ++ String.mk [hexDigitChar (c.toNat / 16), hexDigitChar (c.toNat % 16)]
  else String.singleton c

/-- JSON.stringify of a string value: quotes plus escaped characters. -/
def jsonQuote (s : String) : String :=
  "\"" ++ s.data.foldr (fun c acc => escapeJsonChar c ++ acc) "" ++ "\""

mutual

/-- JSON.stringify: field order is insertion order, no added whitespace. -/
def stringify : Json → String
  | .null => "null"
  | .bool b => if b then "true" else "false"
  | .num n => toString n
  | .str s => jsonQuote s
  | .arr xs => "[" ++ stringifyElems xs ++ "]"
  | .obj fs => "\x7b" ++ stringifyFields fs ++ "\x7d"

/-- Comma-separated serialization of array elements. -/
def stringifyElems : List Json → String
  | [] => ""
  | [x] => stringify x
  | x :: y :: rest => stringify x ++ "," ++ stringifyElems (y :: rest)

/-- Comma-separated serialization of object fields. -/
def stringifyFields : List (String × Json) → String
  | [] => ""
  | [(k, v)] => jsonQuote k ++ ":" ++ stringify v
  | (k, v) :: f :: rest => jsonQuote k ++ ":" ++ stringify v ++ "," ++ stringifyFields (f :: rest)

end

/-- Property access obj[key] on a JSON object (first matching key). -/
def lookupField : List (String × Json) → String → Option Json
  | [], _ => none
  | (k, v) :: rest, key => if k = key then some v else lookupField rest key

/-- Property access on a JSON value; non-objects yield undefined (none). -/
def jsonGet (j : Json) (key : String) : Option Json :=
  match j with
  | .obj fields => lookupField fields key
  | _ => none

/-! UTF-8 encoding (CryptoJS parses string input as UTF-8 before hashing). -/

/-- UTF-8 bytes of a single code point. -/
def utf8Bytes (c : Char) : List Nat :=
  let n := c.toNat
  if n < 128 then [n]
  else if n < 2048 then [192 + n / 64, 128 + n % 64]
  else if n < 65536 then [224 + n / 4096, 128 + (n / 64) % 64, 128 + n % 64]
  else [240 + n / 262144, 128 + (n / 4096) % 64, 128 + (n / 64) % 64, 128 + n % 64]

/-- UTF-8 bytes of a string. -/
def utf8Encode (s : String) : List Nat :=
  s.data.foldr (fun c acc => utf8Bytes c ++ acc) []

/-! SHA-256 (the CryptoJS.SHA256 primitive), on byte lists, with 32-bit
words represented as Nat reduced modulo 2^32. -/

/-- Truncation to a 32-bit word. -/
def w32 (x : Nat) : Nat := x % 4294967296

/-- Right rotation of a 32-bit word. -/
def rotr32 (n x : Nat) : Nat := w32 ((x >>> n) ||| (x <<< (32 - n)))

/-- Big sigma-0 of SHA-256. -/
def bSig0 (x : Nat) : Nat := rotr32 2 x ^^^ rotr32 13 x ^^^ rotr32 22 x

/-- Big sigma-1 of SHA-256. -/
def bSig1 (x : Nat) : Nat := rotr32 6 x ^^^ rotr32 11 x ^^^ rotr32 25 x

/-- Small sigma-0 of SHA-256. -/
def sSig0 (x : Nat) : Nat := rotr32 7 x ^^^ rotr32 18 x ^^^ (x >>> 3)

/-- Small sigma-1 of SHA-256. -/
def sSig1 (x : Nat) : Nat := rotr32 17 x ^^^ rotr32 19 x ^^^ (x >>> 10)

/-- Choice function of SHA-256. -/
def chF (x y z : Nat) : Nat := (x &&& y) ^^^ ((x ^^^ 4294967295) &&& z)

/-- Majority function of SHA-256. -/
def majF (x y z : Nat) : Nat := (x &&& y) ^^^ (x &&& z) ^^^ (y &&& z)

/-- SHA-256 round constants (FIPS 180-4, written in decimal). -/
def sha256Ks : List Nat :=
  [1116352408, 1899447441, 3049323471, 3921009573, 961987163, 1508970993,
   2453635748, 2870763221, 3624381080, 310598401, 607225278, 1426881987,
   1925078388, 2162078206, 2614888103, 3248222580, 3835390401, 4022224774,
   264347078, 604807628, 770255983, 1249150122, 1555081692, 1996064986,
   2554220882, 2821834349, 2952996808, 3210313671, 3336571891, 3584528711,
   113926993, 338241895, 666307205, 773529912, 1294757372, 1396182291,
   1695183700, 1986661051, 2177026350, 2456956037, 2730485921, 2820302411,
   3259730800, 3345764771, 3516065817, 3600352804, 4094571909, 275423344,
   430227734, 506948616, 659060556, 883997877, 958139571, 1322822218,
   1537002063, 1747873779, 1955562222, 2024104815, 2227730452, 2361852424,
   2428436474, 2756734187, 3204031479, 3329325298]

/-- SHA-256 initial hash state (FIPS 180-4, written in decimal). -/
def sha256H0 : List Nat :=
  [1779033703, 3144134277, 1013904242, 2773480762,
   1359893119, 2600822924, 528734635, 1541459225]

/-- Merkle-Damgard padding: 0x80, zeros to 56 mod 64, 64-bit bit length. -/
def sha256pad (msg : List Nat) : List Nat :=
  let bitLen := 8 * msg.length
  let z := (120 - ((msg.length + 1) % 64)) % 64
  msg ++ [0x80] ++ List.replicate z 0 ++
    [bitLen / 2 ^ 56 % 256, bitLen / 2 ^ 48 % 256, bitLen / 2 ^ 40 % 256, bitLen / 2 ^ 32 % 256,
     bitLen / 2 ^ 24 % 256, bitLen / 2 ^ 16 % 256, bitLen / 2 ^ 8 % 256, bitLen % 256]

/-- Split a byte list into 64-byte blocks, structurally recursive on a fuel
bound so that the definition reduces inside the kernel. -/
def chunks64Fuel : Nat → List Nat → List (List Nat)
  | 0, _ => []
  | _, [] => []
  | fuel + 1, a :: rest => ((a :: rest).take 64) :: chunks64Fuel fuel ((a :: rest).drop 64)

/-- Split a byte list into 64-byte blocks (the list length always suffices
as fuel because every step consumes at least one element). -/
def chunks64 (l : List Nat) : List (List Nat) :=
  chunks64Fuel l.length l

/-- Big-endian 4-byte groups to 32-bit words. -/
def bytesToWords : List Nat → List Nat
  | a :: b :: c :: d :: rest => (((a * 256 + b) * 256 + c) * 256 + d) :: bytesToWords rest
  | _ => []

/-- Message-schedule extension of the 16 block words to 64 words. -/
def msgSchedule (ws : List Nat) : List Nat :=
  (List.range 48).foldl
    (fun w _ =>
      let t := w.length
      w ++ [w32 (sSig1 (w.getD (t - 2) 0) + w.getD (t - 7) 0 + sSig0 (w.getD (t - 15) 0) + w.getD (t - 16) 0)])
    ws

/-- One SHA-256 compression step over a 64-byte block. -/
def sha256Compress (h : List Nat) (block : List Nat) : List Nat :=
  let ws := msgSchedule (bytesToWords block)
  let st0 := (h.getD 0 0, h.getD 1 0, h.getD 2 0, h.getD 3 0, h.getD 4 0, h.getD 5 0, h.getD 6 0, h.getD 7 0)
  let stN := (List.range 64).foldl
    (fun st i =>
      let (a, b, c, d, e, f, g, hh) := st
      let t1 := w32 (hh + bSig1 e + chF e f g + sha256Ks.getD i 0 + ws.getD i 0)
      let t2 := w32 (bSig0 a + majF a b c)
      (w32 (t1 + t2), a, b, c, w32 (d + t1), e, f, g)) st0
  let (a, b, c, d, e, f, g, hh) := stN
  [w32 (h.getD 0 0 + a), w32 (h.getD 1 0 + b), w32 (h.getD 2 0 + c), w32 (h.getD 3 0 + d),
   w32 (h.getD 4 0 + e), w32 (h.getD 5 0 + f), w32 (h.getD 6 0 + g), w32 (h.getD 7 0 + hh)]

/-- 32-bit words back to big-endian bytes. -/
def wordsToBytes : List Nat → List Nat
  | [] => []
  | w :: rest => w / 16777216 % 256 :: w / 65536 % 256 :: w / 256 % 256 :: w % 256 :: wordsToBytes rest

/-- SHA-256 digest (32 bytes) of a byte list. -/
def sha256 (msg : List Nat) : List Nat :=
  wordsToBytes ((chunks64 (sha256pad msg)).foldl sha256Compress sha256H0)

/-! Base64 (CryptoJS.enc.Base64.stringify on a word array of bytes). -/

/-- Character of the standard base64 alphabet at a 6-bit index. -/
def b64Char (n : Nat) : Char :=
  "ABCDEFGHIJKLMNOPQRSTUVWXYZabcdefghijklmnopqrstuvwxyz0123456789+/".data.getD n 'A'

/-- Standard base64 encoding with padding. -/
def base64Encode : List Nat → String
  | [] => ""
  | [a] => String.mk [b64Char (a / 4), b64Char (a % 4 * 16)] ++ "=="
  | [a, b] => String.mk [b64Char (a / 4), b64Char (a % 4 * 16 + b / 16), b64Char (b % 16 * 4)] ++ "="
  | a :: b :: c :: rest =>
      String.mk [b64Char (a / 4), b64Char (a % 4 * 16 + b / 16), b64Char (b % 16 * 4 + c / 64), b64Char (c % 64)]
        ++ base64Encode rest

/-- The composite CryptoJS.enc.Base64.stringify(CryptoJS.SHA256(s)) used at
src/main.js lines 254-255: base64 of the SHA-256 digest of the UTF-8 bytes. -/
def digestBase64 (s : String) : String :=
  base64Encode (sha256 (utf8Encode s))

/-! Protocol constants of src/main.js lines 9-26. -/

/-- API version appended to the base URL. -/
def APIVersion : String := "1"

/-- Project name prefixed to every protocol header name. -/
def projectName : String := "Taiyi"

/-- Session header name. -/
def headerNameSession : String := projectName ++ "-Session"

/-- Timestamp header name. -/
def headerNameTimestamp : String := projectName ++ "-Timestamp"

/-- Signature header name. -/
def headerNameSignature : String := projectName ++ "-Signature"

/-- Signature-algorithm header name. -/
def headerNameSignatureAlgorithm : String := projectName ++ "-SignatureAlgorithm"

/-- Default domain used by connect. -/
def defaultDomainName : String := "system"

/-- Default host substituted for an empty host. -/
def defaultDomainHost : String := "localhost"

/-- Fixed signature-algorithm identifier. -/
def signatureMethodEd25519 : String := "ed25519"

/-- Content type header name constant (the value of the JS constant; note
that src/main.js line 245 uses the identifier as an object-literal KEY, where
JavaScript takes the literal property name, not this value). -/
def headerContentType : String := "Content-Type"

/-- JSON content type value. -/
def contentTypeJSON : String := "application/json"

/-! Errors.  The SDK itself only ever executes `throw new Error(msg)`; the
platform additionally raises TypeErrors (calling a non-function, invalid URL,
Request with GET/HEAD body) and ReferenceErrors (unbound identifiers). -/

/-- JavaScript errors observable from the SDK: explicit SDK throws, platform
TypeErrors and platform ReferenceErrors. -/
inductive JsError where
  | error (msg : String) : JsError
  | typeError (msg : String) : JsError
  | refError (msg : String) : JsError
deriving Repr, DecidableEq

/-- An error explicitly raised by SDK code via throw new Error(...) — the
only way the spec's typed error kinds (ConfigurationError, UsageError, ...)
can arise in this client — as opposed to a dynamic platform error. -/
def JsError.isSdkRaised : JsError → Bool
  | .error _ => true
  | _ => false

/-- The private instance state of TaiyiClient (src/main.js lines 47-54). -/
structure ClientState where
  accessID : String
  privateKey : List Nat
  apiBase : String
  domain : String
  nonce : String
  sessionID : String
  timeout : Int
  localIP : String
deriving Repr, DecidableEq

/-- NewClient / the TaiyiClient constructor: all session fields empty. -/
def newClient (accessID : String) (privateKey : List Nat) : ClientState :=
  { accessID := accessID, privateKey := privateKey, apiBase := "", domain := "",
    nonce := "", sessionID := "", timeout := 0, localIP := "" }

/-! URL and fetch-layer models. -/

/-- Test whether the second character list begins with the first. -/
def charsBeginWith : List Char → List Char → Bool
  | [], _ => true
  | _ :: _, [] => false
  | p :: ps, c :: cs => p == c && charsBeginWith ps cs

/-- ASCII uppercase (byte-uppercase, as the fetch spec normalizes method
tokens). -/
def asciiUpper (s : String) : String :=
  String.mk (s.data.map (fun c => if 97 ≤ c.toNat && c.toNat ≤ 122 then Char.ofNat (c.toNat - 32) else c))

/-- ASCII lowercase (header names compare byte-lowercased). -/
def asciiLower (s : String) : String :=
  String.mk (s.data.map (fun c => if 65 ≤ c.toNat && c.toNat ≤ 90 then Char.ofNat (c.toNat + 32) else c))

/-- Pathname extraction of the WHATWG URL constructor, for the http scheme
the SDK builds (new URL(url).pathname, src/main.js line 226 and 232).  A
string without an absolute http scheme or without an authority is an invalid
URL: the constructor throws a TypeError, modelled by none. -/
def urlPathname (url : String) : Option String :=
  let cs := url.data
  if charsBeginWith "http://".data cs then
    let rest := cs.drop 7
    let authority := rest.takeWhile (fun c => !(c == '/' || c == '?' || c == '#'))
    if authority.length = 0 then none
    else
      match rest.drop authority.length with
      | '/' :: tail => some (String.mk ('/' :: tail.takeWhile (fun c => !(c == '?' || c == '#'))))
      | _ => some "/"
  else none

/-- ECMAScript ToString(undefined), as applied by the URL constructor when
it receives an undefined argument. -/
def undefinedString : String := "undefined"

/-- A fetch Request as the SDK assembles it: url, method, header list in
append order, optional string body. -/
structure RequestModel where
  url : String
  method : String
  headers : List (String × String)
  body : Option String
deriving Repr, DecidableEq

/-- Case-insensitive presence of a header name (HTTP header names are
case-insensitive; the Headers object normalizes them for comparison). -/
def hasHeaderName (headers : List (String × String)) (name : String) : Bool :=
  headers.any (fun h => asciiLower h.1 == asciiLower name)

/-- A fetch Response as seen by the SDK: ok flag, status, statusText, and
the JSON decoding of the body (none when the body is not valid JSON). -/
structure ResponseModel where
  ok : Bool
  status : Int
  statusText : String
  bodyJson : Option Json
deriving Repr

/-- Result of #signatureRequest: the assembled Request plus, as observable
ghost data for the theorems, the canonical signature content that was
serialized and signed (the JS function signs it and returns only the
Request). -/
structure SignedRequest where
  request : RequestModel
  signatureContent : Json
deriving Repr

/-- The #signatureRequest dispatcher (src/main.js lines 225-263).  Inputs
that the JS reads from the environment are explicit: sign models
this.#base64Signature (ed25519 signature, base64-encoded, of the serialized
content — its value is opaque to every claim), timestamp models new
Date().toISOString().  Steps, in source order: parse the URL (TypeError on an
invalid URL); serialize the payload into the body and attach the
content-type header — under the literal property name "headerContentType",
since the JS object literal at line 245 uses the identifier as a literal
key; construct the Request (the platform rejects a GET/HEAD request carrying
a body); for post/put/delete/patch overwrite the signed body field with the
base64 SHA-256 digest of the body string; sign; append the four protocol
headers. -/
def signatureRequest (st : ClientState) (sign : String → String) (timestamp : String)
    (method url : String) (payload : Option Json) : Except JsError SignedRequest :=
  match urlPathname url with
  | none => .error (.typeError ("Invalid URL: " ++ url))
  | some pathname =>
    let bodyContent := match payload with
      | some p => stringify p
      | none => ""
    let initHeaders : List (String × String) := match payload with
      | some _ => [("headerContentType", contentTypeJSON)]
      | none => []
    let bodyOpt : Option String := match payload with
      | some _ => some bodyContent
      | none => none
    if bodyOpt.isSome && (asciiUpper method == "GET" || asciiUpper method == "HEAD") then
      .error (.typeError "Request with GET/HEAD method cannot have body.")
    else
      let bodyField :=
        if method == "post" || method == "put" || method == "delete" || method == "patch" then
          digestBase64 bodyContent
        else ""
      let signatureContent := Json.obj
        [("id", .str st.sessionID), ("method", .str method), ("url", .str pathname),
         ("body", .str bodyField), ("access", .str st.accessID), ("timestamp", .str timestamp),
         ("nonce", .str st.nonce), ("signature_algorithm", .str signatureMethodEd25519)]
      let signature := sign (stringify signatureContent)
      let headers := initHeaders ++
        [(headerNameSession, st.sessionID), (headerNameTimestamp, timestamp),
         (headerNameSignatureAlgorithm, signatureMethodEd25519), (headerNameSignature, signature)]
      .ok { request := { url := url, method := method, headers := headers, body := bodyOpt },
            signatureContent := signatureContent }

/-! Response parsing. -/

/-- The expression resp.ok() at src/main.js line 190.  Response.ok is a
boolean property of the platform Response object, not a method; invoking it
as a function raises a TypeError before the status is ever inspected. -/
def respOkCalled : Except JsError Bool :=
  .error (.typeError "resp.ok is not a function")

/-- Loose JavaScript inequality 0 != payload[error_code] at line 194
(payload[k] of a missing key is undefined, and 0 != undefined is true). -/
def errorCodeNonzero (payload : Json) : Bool :=
  match jsonGet payload "error_code" with
  | some (.num 0) => false
  | _ => true

/-- The message concatenation 'fetch faile: ' + payload[message] at line
195 (an absent field stringifies as "undefined"). -/
def errorMessageOf (payload : Json) : String :=
  match jsonGet payload "message" with
  | some (.str s) => s
  | some j => stringify j
  | none => "undefined"

/-- The body of #parseResponse (src/main.js lines 188-198) applied to an
already-fetched response.  The first statement after the fetch calls the
boolean property resp.ok as a function, so the whole function rejects with a
TypeError on every response; the remaining source statements (transport
error on !ok, envelope decoding, the error_code test) are modelled after it
and are all unreachable. -/
def parseResponseBody (resp : ResponseModel) : Except JsError Json := do
  let ok ← respOkCalled
  if !ok then
    .error (.error ("fetch result failed with status " ++ toString resp.status ++ ": " ++ resp.statusText))
  else
    match resp.bodyJson with
    | none => .error (.typeError "Unexpected end of JSON input")
    | some payload =>
      if errorCodeNonzero payload then .error (.error ("fetch faile: " ++ errorMessageOf payload))
      else .ok payload

/-- #parseResponse (src/main.js lines 188-198): issues the fetch (recorded
in the trace of sent requests), then parses.  net models the transport. -/
def parseResponse (net : RequestModel → ResponseModel) (req : RequestModel) :
    Except JsError Json × List RequestModel :=
  (parseResponseBody (net req), [req])

/-- #getResult (src/main.js lines 200-203): parse the envelope, then
JSON.parse the data field a second time.  jsParse models the platform
JSON.parse; the parse step is unreachable because #parseResponse always
rejects (see respOkCalled). -/
def getResult (net : RequestModel → ResponseModel) (jsParse : String → Except JsError Json)
    (req : RequestModel) : Except JsError Json × List RequestModel :=
  match parseResponse net req with
  | (.error e, sent) => (.error e, sent)
  | (.ok payload, sent) =>
    match jsonGet payload "data" with
    | some (.str s) => (jsParse s, sent)
    | _ => (.error (.typeError "JSON.parse: unexpected input"), sent)

/-- #validateResult (src/main.js lines 184-186): it neither awaits nor
returns this.#parseResponse(request), so the fetch is issued, the parse
outcome (always a rejection, see respOkCalled) is dropped as an unhandled
promise rejection, and the caller observes a successful undefined result. -/
def validateResult (net : RequestModel → ResponseModel) (req : RequestModel) :
    Except JsError Unit × List RequestModel :=
  match parseResponse net req with
  | (_, sent) => (.ok (), sent)

/-- #doRequest (src/main.js lines 205-208). -/
def doRequest (st : ClientState) (sign : String → String) (timestamp : String)
    (net : RequestModel → ResponseModel) (method url : String) :
    Except JsError Unit × List RequestModel :=
  match signatureRequest st sign timestamp method url none with
  | .error e => (.error e, [])
  | .ok sr => validateResult net sr.request

/-- #fetchResponseWithPayload (src/main.js lines 220-223). -/
def fetchResponseWithPayload (st : ClientState) (sign : String → String) (timestamp : String)
    (net : RequestModel → ResponseModel) (jsParse : String → Except JsError Json)
    (method url : String) (payload : Option Json) :
    Except JsError Json × List RequestModel :=
  match signatureRequest st sign timestamp method url payload with
  | .error e => (.error e, [])
  | .ok sr => getResult net jsParse sr.request

/-! Path mapping. -/

/-- #mapToAPI (src/main.js lines 265-267). -/
def mapToAPI (st : ClientState) (path : String) : String :=
  st.apiBase ++ path

/-- #mapToDomain (src/main.js lines 269-271): note that path is appended
directly after the domain name with no separator of its own. -/
def mapToDomain (st : ClientState) (path : String) : String :=
  st.apiBase ++ "/domains/" ++ st.domain ++ path

/-! The handshake. -/

/-- The JavaScript value bound to the headers parameter of #rawRequest:
either an actual Headers object or — as happens at the only call site,
src/main.js line 105, which passes three arguments to a four-parameter
function — a plain object. -/
inductive HeadersArg where
  | headersObject (hs : List (String × String)) : HeadersArg
  | plainObject (o : Json) : HeadersArg
deriving Repr

/-- #rawRequest (src/main.js lines 164-176).  Its first statement after
computing the url calls headers.append: on a plain object that property is
undefined, so a TypeError is raised.  Even with a real Headers object the
next guard reads the unbound identifier nil (line 171), raising a
ReferenceError.  Either way no Request is constructed and nothing is sent. -/
def rawRequest (st : ClientState) (method path : String) (headers : HeadersArg)
    (payload : Option Json) : Except JsError Json × List RequestModel :=
  let _url := mapToAPI st path
  let _payload := payload
  let _method := method
  match headers with
  | .plainObject _ => (.error (.typeError "headers.append is not a function"), [])
  | .headersObject _ => (.error (.refError "nil is not defined"), [])

/-- Outcome of connectToDomain: the returned-or-thrown result, the client
state after the call, the trace of requests actually handed to fetch, and —
ghost data for the theorems — the handshake signature content when the run
reached the signing step. -/
structure ConnectOutcome where
  result : Except JsError Unit
  state : ClientState
  sent : List RequestModel
  handshakeContent : Option Json
deriving Repr

/-- connectToDomain (src/main.js lines 74-110).  nonce models
this.#newNonce() (Strings.random(16)), timestamp models new
Date().toISOString(), sign models this.#base64Signature.  After validation
the apiBase, domain and nonce fields are assigned eagerly; the handshake
content {access, timestamp, nonce, signature_algorithm} is signed; headers
with the timestamp, algorithm and signature are assembled but never passed
on: the call this.#rawRequest('post', '/sessions/', requestData) supplies
requestData in the headers position and leaves payload undefined, so
rawRequest raises a TypeError and the session fields from the response
destructuring are never written. -/
def connectToDomain (st : ClientState) (host : String) (port : Int) (domainName : String)
    (nonce timestamp : String) (sign : String → String) : ConnectOutcome :=
  let host := if host = "" then defaultDomainHost else host
  if domainName = "" then
    { result := .error (.error "domain name omit"), state := st, sent := [], handshakeContent := none }
  else if port ≤ 0 ∨ port > 65535 then
    { result := .error (.error ("invalid port " ++ toString port)), state := st, sent := [],
      handshakeContent := none }
  else
    let st1 := { st with
      apiBase := "http://" ++ host ++ ":" ++ toString port ++ "/api/v" ++ APIVersion,
      domain := domainName,
      nonce := nonce }
    let signatureContent := Json.obj
      [("access", .str st1.accessID), ("timestamp", .str timestamp),
       ("nonce", .str nonce), ("signature_algorithm", .str signatureMethodEd25519)]
    let signature := sign (stringify signatureContent)
    let _headers : List (String × String) :=
      [(headerNameTimestamp, timestamp), (headerNameSignatureAlgorithm, signatureMethodEd25519),
       (headerNameSignature, signature)]
    let requestData := Json.obj [("id", .str st1.accessID), ("nonce", .str nonce)]
    match rawRequest st1 "post" "/sessions/" (.plainObject requestData) none with
    | (.error e, sent) =>
      { result := .error e, state := st1, sent := sent, handshakeContent := some signatureContent }
    | (.ok payload, sent) =>
      let st2 := { st1 with
        sessionID := (match jsonGet payload "session" with | some (.str s) => s | _ => ""),
        timeout := (match jsonGet payload "timeout" with | some (.num n) => n | _ => 0),
        localIP := (match jsonGet payload "address" with | some (.str s) => s | _ => "") }
      { result := .ok (), state := st2, sent := sent, handshakeContent := some signatureContent }

/-- connect (src/main.js lines 70-72): delegates with the default domain. -/
def connect (st : ClientState) (host : String) (port : Int)
    (nonce timestamp : String) (sign : String → String) : ConnectOutcome :=
  connectToDomain st host port defaultDomainName nonce timestamp sign

/-- activate (src/main.js lines 112-115).  The call
this.#doRequest(('put', url)) evaluates the parenthesized comma expression
to url, so #doRequest receives url as its method parameter and undefined as
its url parameter; the URL constructor stringifies undefined to
"undefined". -/
def activate (st : ClientState) (sign : String → String) (timestamp : String)
    (net : RequestModel → ResponseModel) : Except JsError Unit × List RequestModel :=
  let url := mapToAPI st "/sessions/"
  doRequest st sign timestamp net url undefinedString

/-- querySchemas (src/main.js lines 144-151): a post of {offset, limit} to
mapToDomain('schemas/') — the argument carries no leading slash. -/
def querySchemas (st : ClientState) (queryStart maxRecord : Int) (sign : String → String)
    (timestamp : String) (net : RequestModel → ResponseModel)
    (jsParse : String → Except JsError Json) : Except JsError Json × List RequestModel :=
  let url := mapToDomain st "schemas/"
  let condition := Json.obj [("offset", .num queryStart), ("limit", .num maxRecord)]
  fetchResponseWithPayload st sign timestamp net jsParse "post" url (some condition)

/-! Observers used by the theorems. -/

/-- Signed body field of a dispatch result (none when dispatch threw). -/
def signedBodyField (r : Except JsError SignedRequest) : Option Json :=
  match r with
  | .ok sr => jsonGet sr.signatureContent "body"
  | .error _ => none

/-- Header list of a dispatch result (empty when dispatch threw). -/
def requestHeadersOf (r : Except JsError SignedRequest) : List (String × String) :=
  match r with
  | .ok sr => sr.request.headers
  | .error _ => []

/-- Signed body field of a dispatch result as the raw string it holds
(empty for a thrown dispatch or a non-string field). -/
def signedBodyString (r : Except JsError SignedRequest) : String :=
  match signedBodyField r with
  | some (.str s) => s
  | _ => ""

/-- Dispatch results carry the stored session id and nonce in the signed
content, for every dispatch that builds a request at all. -/
def signedIdNonce (st : ClientState) (r : Except JsError SignedRequest) : Prop :=
  match r with
  | .ok sr =>
      jsonGet sr.signatureContent "id" = some (.str st.sessionID) ∧
      jsonGet sr.signatureContent "nonce" = some (.str st.nonce)
  | .error _ => True

/-- The handshake signature content, when a run produced one, has no id
(session) field. -/
def handshakeHasNoId (o : ConnectOutcome) : Prop :=
  match o.handshakeContent with
  | some c => jsonGet c "id" = none
  | none => True

/-! Concrete fixtures for closed theorems. -/

/-- Constant stand-in for the ed25519 signing primitive. -/
def sigConst : String → String := fun _ => "SIG"

/-- A well-formed success envelope response. -/
def okEnvelope : ResponseModel :=
  { ok := true, status := 200, statusText := "OK",
    bodyJson := some (Json.obj
      [("error_code", Json.num 0), ("message", Json.str ""), ("data", Json.str "\x7b\x7d")]) }

/-- A transport that always yields okEnvelope. -/
def netConst : RequestModel → ResponseModel := fun _ => okEnvelope

/-- Trivial stand-in for the platform JSON.parse. -/
def jsParseNull : String → Except JsError Json := fun _ => .ok Json.null

/-- A client state as it would look with an established session. -/
def connectedState : ClientState :=
  { newClient "alice" [] with
    apiBase := "http://localhost:9000/api/v1", domain := "system",
    nonce := "n16", sessionID := "sess1" }

/-! Claim C1. -/

/-- C1 (counterexample): for method put with a null payload — exactly how
activate-style calls dispatch — the signed body field is the base64 SHA-256
digest of the empty string, not the empty-string sentinel the claim
requires for a null payload. -/
theorem C1_null_body_counterexample :
    signedBodyString (signatureRequest (newClient "alice" []) sigConst
        "2026-01-02T03:04:05.000Z" "put" "http://localhost:9000/api/v1/sessions/" none)
      = "47DEQpj8HBSa+/TImW+5JCeuQeRkm5NMpJWZG3hSuFU="
    ∧ ("47DEQpj8HBSa+/TImW+5JCeuQeRkm5NMpJWZG3hSuFU=" : String) ≠ "" :=
  ⟨by decide, by decide⟩

/-- C1 (amended): for every request the dispatcher builds, the signed body
field equals the base64 SHA-256 digest of the transmitted body string — the
serialized payload when one exists, the empty string when the payload is
null — whenever the method is post, put, delete or patch, and is the
sentinel empty string for any other method (in particular get); the
sentinel is not the digest of the empty string. -/
theorem C1_signed_body (st : ClientState) (sign : String → String)
    (ts method url : String) (payload : Option Json) :
    (match signatureRequest st sign ts method url payload with
     | .ok sr =>
        jsonGet sr.signatureContent "body" =
          some (Json.str
            (if method == "post" || method == "put" || method == "delete" || method == "patch" then
              digestBase64 (sr.request.body.getD "")
            else "")) ∧
        sr.request.body = payload.map stringify
     | .error _ => True)
    ∧ digestBase64 "" ≠ "" := by
  constructor
  · unfold signatureRequest
    cases hu : urlPathname url with
    | none => exact trivial
    | some p =>
      cases payload with
      | none => exact ⟨rfl, rfl⟩
      | some q =>
        cases hM : (asciiUpper method == "GET" || asciiUpper method == "HEAD") with
        | true => simp only [hM, Option.isSome_some, Bool.true_and]; exact trivial
        | false => simp only [hM, Option.isSome_some, Bool.true_and]; exact ⟨rfl, rfl⟩
  · decide

/-! Claim C2. -/

/-- C2: for every run of connectToDomain that passes validation, the
handshake POST to "/sessions/" is never issued: the #rawRequest call passes
the body object in the headers position (three arguments to a
four-parameter function), appends on a plain object, and raises a TypeError
with an empty trace of sent requests, contradicting the claim that the
handshake request is issued with body and headers attached. -/
theorem C2_handshake_never_sent (st : ClientState) (host : String) (port : Int)
    (domainName nonce ts : String) (sign : String → String)
    (hd : domainName ≠ "") (hp1 : 0 < port) (hp2 : port ≤ 65535) :
    (connectToDomain st host port domainName nonce ts sign).sent = []
    ∧ (connectToDomain st host port domainName nonce ts sign).result
        = .error (.typeError "headers.append is not a function") := by
  have hp : ¬(port ≤ 0 ∨ port > 65535) := by omega
  simp only [connectToDomain, if_neg hd, if_neg hp, rawRequest]
  refine ⟨?_, ?_⟩ <;> trivial

/-- C2 (witness): the failure at a concrete valid input. -/
theorem C2_witness :
    (connectToDomain (newClient "alice" []) "" 8080 "system" "n0" "t0" sigConst).sent = []
    ∧ (connectToDomain (newClient "alice" []) "" 8080 "system" "n0" "t0" sigConst).result
        = .error (.typeError "headers.append is not a function") :=
  C2_handshake_never_sent (newClient "alice" []) "" 8080 "system" "n0" "t0" sigConst
    (by decide) (by decide) (by decide)

/-! Claim C3. -/

/-- C3: the validation side of the claim holds — an out-of-range port or
an empty domain name makes connectToDomain throw an Error with the client
state untouched — but the success direction fails: even at a fully valid
input (host defaulted, port 8080, domain "system") connect does not
succeed, raising the #rawRequest TypeError instead. -/
theorem C3_connect_validation :
    (connectToDomain (newClient "alice" []) "" 8080 "system" "n0" "t0" sigConst).result
      = .error (.typeError "headers.append is not a function")
    ∧ (connectToDomain (newClient "alice" []) "api.example.com" 70000 "system" "n0" "t0" sigConst).result
      = .error (.error "invalid port 70000")
    ∧ (connectToDomain (newClient "alice" []) "api.example.com" 70000 "system" "n0" "t0" sigConst).state
      = newClient "alice" []
    ∧ (connectToDomain (newClient "alice" []) "" 8080 "" "n0" "t0" sigConst).result
      = .error (.error "domain name omit")
    ∧ (connectToDomain (newClient "alice" []) "" 8080 "" "n0" "t0" sigConst).state
      = newClient "alice" [] :=
  ⟨rfl, rfl, rfl, rfl, rfl⟩

/-! Claim C4. -/

/-- C4 (counterexample): a failing run after validation passes does NOT
keep every Session field at its pre-call value: on a fresh client the
apiBase field has been overwritten before the failure. -/
theorem C4_partial_state_counterexample :
    (connectToDomain (newClient "alice" []) "" 8080 "system" "n0" "t0" sigConst).result
      = .error (.typeError "headers.append is not a function")
    ∧ (connectToDomain (newClient "alice" []) "" 8080 "system" "n0" "t0" sigConst).state.apiBase
        = "http://localhost:8080/api/v1"
    ∧ (newClient "alice" []).apiBase = "" :=
  ⟨rfl, rfl, rfl⟩

/-- C4 (amended): every post-validation run of connectToDomain fails and
leaves sessionID, timeout and localIP at their pre-call values, but
apiBase, domain and nonce are overwritten before the request stage. -/
theorem C4_preserved_fields (st : ClientState) (host : String) (port : Int)
    (domainName nonce ts : String) (sign : String → String)
    (hd : domainName ≠ "") (hp1 : 0 < port) (hp2 : port ≤ 65535) :
    (connectToDomain st host port domainName nonce ts sign).result ≠ Except.ok ()
    ∧ (connectToDomain st host port domainName nonce ts sign).state.sessionID = st.sessionID
    ∧ (connectToDomain st host port domainName nonce ts sign).state.timeout = st.timeout
    ∧ (connectToDomain st host port domainName nonce ts sign).state.localIP = st.localIP
    ∧ (connectToDomain st host port domainName nonce ts sign).state.domain = domainName
    ∧ (connectToDomain st host port domainName nonce ts sign).state.nonce = nonce
    ∧ (connectToDomain st host port domainName nonce ts sign).state.apiBase
        = "http://" ++ (if host = "" then defaultDomainHost else host) ++ ":" ++ toString port
            ++ "/api/v" ++ APIVersion := by
  have hp : ¬(port ≤ 0 ∨ port > 65535) := by omega
  simp only [connectToDomain, if_neg hd, if_neg hp, rawRequest]
  refine ⟨fun h => Except.noConfusion h, ?_, ?_, ?_, ?_, ?_, ?_⟩ <;> trivial

/-- C4 (witness): the amended statement at a concrete valid input on a
client that already holds session state. -/
theorem C4_witness :
    (connectToDomain connectedState "" 8080 "system" "n0" "t0" sigConst).result ≠ Except.ok ()
    ∧ (connectToDomain connectedState "" 8080 "system" "n0" "t0" sigConst).state.sessionID
        = connectedState.sessionID
    ∧ (connectToDomain connectedState "" 8080 "system" "n0" "t0" sigConst).state.timeout
        = connectedState.timeout
    ∧ (connectToDomain connectedState "" 8080 "system" "n0" "t0" sigConst).state.localIP
        = connectedState.localIP
    ∧ (connectToDomain connectedState "" 8080 "system" "n0" "t0" sigConst).state.domain = "system"
    ∧ (connectToDomain connectedState "" 8080 "system" "n0" "t0" sigConst).state.nonce = "n0"
    ∧ (connectToDomain connectedState "" 8080 "system" "n0" "t0" sigConst).state.apiBase
        = "http://" ++ (if ("" : String) = "" then defaultDomainHost else "") ++ ":" ++ toString (8080 : Int)
            ++ "/api/v" ++ APIVersion :=
  C4_preserved_fields connectedState "" 8080 "system" "n0" "t0" sigConst
    (by decide) (by decide) (by decide)

/-! Claim C5. -/

/-- C5: activate never issues an authenticated PUT to "/sessions/".  The
call this.#doRequest(('put', url)) evaluates the comma expression to the
url, so the url lands in the method parameter and the url parameter is
undefined; the URL constructor then rejects "undefined" with a TypeError in
every state, with no request issued. -/
theorem C5_activate_invalid_url (st : ClientState) (sign : String → String) (ts : String)
    (net : RequestModel → ResponseModel) :
    activate st sign ts net = (.error (.typeError ("Invalid URL: " ++ undefinedString)), []) := rfl

/-! Claim C6. -/

/-- C6: for a connected client with domain "system", querySchemas posts
JSON body with offset and limit as claimed, but to the URL
apiBase ++ "/domains/systemschemas/" — the 'schemas/' argument carries no
leading slash, so the domain name and "schemas/" are concatenated — which
differs from the claimed apiBase ++ "/domains/system/schemas/". -/
theorem C6_schemas_url :
    (querySchemas connectedState 0 20 sigConst "t0" netConst jsParseNull).2
      = [{ url := "http://localhost:9000/api/v1/domains/systemschemas/", method := "post",
           headers := [("headerContentType", "application/json"), ("Taiyi-Session", "sess1"),
                       ("Taiyi-Timestamp", "t0"), ("Taiyi-SignatureAlgorithm", "ed25519"),
                       ("Taiyi-Signature", "SIG")],
           body := some "\x7b\"offset\":0,\"limit\":20\x7d" }]
    ∧ ("http://localhost:9000/api/v1/domains/systemschemas/" : String)
        ≠ "http://localhost:9000/api/v1/domains/system/schemas/"
    ∧ (querySchemas connectedState 0 20 sigConst "t0" netConst jsParseNull).1
        = .error (.typeError "resp.ok is not a function") :=
  ⟨by decide, by decide, rfl⟩

/-! Claim C7. -/

/-- C7: envelope parsing never reaches the transport-status check, the
error_code dispatch or the data field: #parseResponse invokes the boolean
property resp.ok as a function and rejects with a TypeError on every
response, success or not. -/
theorem C7_parse_raises_type_error (resp : ResponseModel) :
    parseResponseBody resp = .error (.typeError "resp.ok is not a function") := rfl

/-! Claim C8. -/

/-- C8: structurally, the handshake signature content indeed has no id
field and every dispatcher signature carries the stored sessionID and
nonce; but connectToDomain never completes — every run fails and leaves
sessionID unchanged — so no signature can ever carry a session id returned
by a successful handshake, and the stored sessionID stays at its initial
empty value. -/
theorem C8_session_binding (st : ClientState) (host : String) (port : Int)
    (domainName nonce ts : String) (sign : String → String)
    (method url : String) (payload : Option Json) :
    handshakeHasNoId (connectToDomain st host port domainName nonce ts sign)
    ∧ (connectToDomain st host port domainName nonce ts sign).state.sessionID = st.sessionID
    ∧ (connectToDomain st host port domainName nonce ts sign).result ≠ Except.ok ()
    ∧ signedIdNonce st (signatureRequest st sign ts method url payload) := by
  refine ⟨?_, ?_, ?_, ?_⟩
  · by_cases hd : domainName = ""
    · simp [handshakeHasNoId, connectToDomain, hd]
    · by_cases hp : (port ≤ 0 ∨ port > 65535)
      · simp [handshakeHasNoId, connectToDomain, hd, hp]
      · simp only [handshakeHasNoId, connectToDomain, if_neg hd, if_neg hp, rawRequest]
        rfl
  · by_cases hd : domainName = ""
    · simp [connectToDomain, hd]
    · by_cases hp : (port ≤ 0 ∨ port > 65535)
      · simp [connectToDomain, hd, hp]
      · simp only [connectToDomain, if_neg hd, if_neg hp, rawRequest]
  · by_cases hd : domainName = ""
    · simp only [connectToDomain, if_pos hd]
      exact fun h => Except.noConfusion h
    · by_cases hp : (port ≤ 0 ∨ port > 65535)
      · simp only [connectToDomain, if_neg hd, if_pos hp]
        exact fun h => Except.noConfusion h
      · simp only [connectToDomain, if_neg hd, if_neg hp, rawRequest]
        exact fun h => Except.noConfusion h
  · unfold signedIdNonce signatureRequest
    cases hu : urlPathname url with
    | none => exact trivial
    | some p =>
      cases payload with
      | none => exact ⟨rfl, rfl⟩
      | some q =>
        cases hM : (asciiUpper method == "GET" || asciiUpper method == "HEAD") with
        | true => simp only [hM, Option.isSome_some, Bool.true_and]; exact trivial
        | false => simp only [hM, Option.isSome_some, Bool.true_and]; exact ⟨rfl, rfl⟩

/-! Claim C9. -/

/-- C9 (counterexample): querySchemas before any successful connect fails
with a platform TypeError raised while constructing the URL
"/domains/schemas/" from the still-empty apiBase — not with an error thrown
by SDK validation code, which is the only way the spec's UsageError could
materialize — though indeed no network call is issued. -/
theorem C9_no_usage_error_counterexample :
    querySchemas (newClient "alice" []) 0 20 sigConst "t0" netConst jsParseNull
      = (.error (.typeError "Invalid URL: /domains/schemas/"), [])
    ∧ JsError.isSdkRaised (.typeError "Invalid URL: /domains/schemas/") = false :=
  ⟨rfl, rfl⟩

/-- C9 (amended): on every fresh, never-connected client, querySchemas
fails before issuing any network request, with the invalid-URL TypeError
produced by the empty apiBase; the code performs no explicit state check. -/
theorem C9_unconnected_no_network (a : String) (k : List Nat) (offset limit : Int)
    (sign : String → String) (ts : String) (net : RequestModel → ResponseModel)
    (jsParse : String → Except JsError Json) :
    querySchemas (newClient a k) offset limit sign ts net jsParse
      = (.error (.typeError "Invalid URL: /domains/schemas/"), []) := rfl

/-! Claim C10. -/

/-- Header list of a representative authenticated request with a JSON
body, as the dispatcher actually assembles it. -/
def sampleHeaders : List (String × String) :=
  [("headerContentType", "application/json"), ("Taiyi-Session", "sess1"),
   ("Taiyi-Timestamp", "t0"), ("Taiyi-SignatureAlgorithm", "ed25519"),
   ("Taiyi-Signature", "SIG")]

/-- C10: an authenticated request with a JSON body carries the four fixed
protocol headers (session, timestamp, signature-algorithm, signature), but
no Content-Type header: the object literal at src/main.js line 245 uses the
constant's identifier as a literal property name, so the body-bearing
request gets a header named "headerContentType" instead. -/
theorem C10_header_names :
    requestHeadersOf (signatureRequest connectedState sigConst "t0" "post"
        "http://localhost:9000/api/v1/domains/system/schemas/"
        (some (Json.obj [("offset", Json.num 0), ("limit", Json.num 20)])))
      = sampleHeaders
    ∧ hasHeaderName sampleHeaders headerNameSession = true
    ∧ hasHeaderName sampleHeaders headerNameTimestamp = true
    ∧ hasHeaderName sampleHeaders headerNameSignatureAlgorithm = true
    ∧ hasHeaderName sampleHeaders headerNameSignature = true
    ∧ hasHeaderName sampleHeaders headerContentType = false :=
  ⟨by decide, by decide, by decide, by decide, by decide, by decide⟩

end Taiyi
